import Mathlib

/-!
Shallow embedding of `drf_httpsig/authentication.py`: the HTTP-Signature
authentication orchestrator (`SignatureAuthentication.authenticate`), its
module-level reusable failure object `FAILED`, and the verdicts it produces.

External collaborators (the `httpsig` library's `parse_authorization_header`
and `HeaderVerifier`, the subclass-supplied `fetch_user_data` and
`fetch_on_behalf_of_user` callbacks, and the wall clock `time.time()`) are
modelled as an environment of abstract functions: the theorems quantify over
them, so nothing is assumed about their behaviour beyond their return values.

Python exceptions are modelled by an error type `PyErr`; a function that can
raise returns `Except PyErr α`.  Python truthiness of the string-or-None
values flowing through `authenticate` is modelled by `truthy`.
-/

/-- Model of the Python values that flow through `authenticate` as principal
or secret: `none` is Python `None`, `some s` a string-like object whose
truthiness is emptiness-based (Django user objects are modelled as nonempty
strings, which are truthy, matching the truthiness of objects without
`__bool__`/`__len__`). -/
abbrev PyVal := Option String

/-- Python truthiness for `PyVal`: `None` and the empty string are falsy. -/
def truthy : PyVal → Bool
  | none => false
  | some s => !s.isEmpty

/-- ASCII lowercasing, modelling Python's `str.lower()` on the ASCII
header and scheme tokens this code handles (character-by-character, so it
reduces in the kernel). -/
def lowerStr (s : String) : String :=
  String.mk (s.data.map Char.toLower)

/-- Whitespace stripping, modelling the `int()` built-in's tolerance of
surrounding whitespace. -/
def pyStrip (s : String) : String :=
  String.mk (((s.data.dropWhile Char.isWhitespace).reverse.dropWhile
    Char.isWhitespace).reverse)

/-- Model of the Python exceptions that can escape `authenticate`.

`singletonAuthFailed` is an `AuthenticationFailed` object allocated once at
module load (the module-level constant `FAILED`); `freshAuthFailed` is an
`AuthenticationFailed` object constructed at the raise site.  Keeping them
as separate constructors records object identity: a raised value equal to
`FAILED` is the very module-level singleton, not a per-request copy.
`typeError` and `valueError` model the built-in `TypeError`/`ValueError`;
`other` models an arbitrary exception raised by an embedding callback. -/
inductive PyErr where
  | singletonAuthFailed (detail : String)
  | freshAuthFailed (detail : String)
  | typeError
  | valueError
  | other (tag : String)
deriving DecidableEq, Repr

/-- Line 21 of `authentication.py`:
`FAILED = exceptions.AuthenticationFailed("Invalid signature.")`,
the single pre-allocated failure object raised for every generic
rejection. -/
def FAILED : PyErr := PyErr.singletonAuthFailed "Invalid signature."

/-- Digits of a decimal literal to a natural number; `none` when the list is
empty or contains a non-digit character. -/
def digitsToNat? (cs : List Char) : Option Nat :=
  if cs.isEmpty then none
  else cs.foldl
    (fun acc c => acc.bind (fun n =>
      if c.isDigit then some (10 * n + (c.toNat - 48)) else none))
    (some 0)

/-- Model of the Python built-in `int(s)` on a string argument: optional
surrounding whitespace, an optional sign, then decimal digits; anything
else raises `ValueError`. -/
def pyIntOfString (s : String) : Except PyErr Int :=
  match (pyStrip s).toList with
  | [] => .error PyErr.valueError
  | c :: rest =>
    if c = '-' then
      match digitsToNat? rest with
      | some n => .ok (-(n : Int))
      | none => .error PyErr.valueError
    else if c = '+' then
      match digitsToNat? rest with
      | some n => .ok ((n : Int))
      | none => .error PyErr.valueError
    else
      match digitsToNat? (c :: rest) with
      | some n => .ok ((n : Int))
      | none => .error PyErr.valueError

/-- Model of the Python built-in `int(x)` on a string-or-None argument:
`int(None)` raises `TypeError`, `int(s)` parses or raises `ValueError`. -/
def pyInt : Option String → Except PyErr Int
  | none => .error PyErr.typeError
  | some s => pyIntOfString s

/-- A request's header mapping, as name/value pairs. -/
abbrev Headers := List (String × String)

/-- Case-insensitive header lookup, modelling Django's
`HttpHeaders.get`/`__getitem__` access used by `authenticate`. -/
def headersGet (hs : Headers) (k : String) : Option String :=
  (hs.find? (fun p => lowerStr p.1 == lowerStr k)).map (fun p => p.2)

/-- Case-insensitive header membership, modelling `name in request.headers`. -/
def hasHeader (hs : Headers) (k : String) : Bool :=
  (headersGet hs k).isSome

/-- The normalized view of the request that `authenticate` consumes:
`request.method`, `request.get_full_path()` (path with query string), and
`request.headers`. -/
structure Request where
  method : String
  fullPath : String
  headers : Headers

/-- Model of `rest_framework.authentication.get_authorization_header`:
returns the `Authorization` header value, or the empty string when the
header is absent. -/
def get_authorization_header (req : Request) : String :=
  (headersGet req.headers "authorization").getD ""

/-- The external collaborators of `authenticate`, as abstract functions:

* `parseAuthorizationHeader` — `httpsig.utils.parse_authorization_header`,
  returning the scheme token and the parsed parameter dict (as an
  association list of the dict's items);
* `fetchUserData` — the subclass's `fetch_user_data(keyId, algorithm)`,
  returning a `(user, secret)` pair or raising;
* `headerVerify` — construction of `httpsig.HeaderVerifier(headers, secret,
  required_headers, method, path)` followed by `.verify()`, returning the
  boolean verdict or raising;
* `fetchOnBehalfOfUser` — the subclass's `fetch_on_behalf_of_user(user_id)`;
* `requiredHeaders` — the class attribute `required_headers`;
* `timeNow` — `time.time()`, in epoch seconds. -/
structure Env where
  parseAuthorizationHeader : String → String × List (String × String)
  fetchUserData : String → String → Except PyErr (PyVal × PyVal)
  headerVerify : Headers → PyVal → List String → String → String → Except PyErr Bool
  fetchOnBehalfOfUser : String → Except PyErr PyVal
  requiredHeaders : List String
  timeNow : Int

/-- Dict item access `fields[k]` on the parsed parameter mapping (only
reached after membership has been checked, so the default is never
observed). -/
def dictGet (fields : List (String × String)) (k : String) : String :=
  match fields.find? (fun p => p.1 == k) with
  | some p => p.2
  | none => ""

/-- Dict key membership `k in fields.keys()` (exact string comparison, as
the source performs on the already parsed keys). -/
def hasField (fields : List (String × String)) (k : String) : Bool :=
  fields.any (fun p => p.1 == k)

/-- Line 83: `len(set(("keyid", "algorithm", "signature")) - set(fields.keys())) > 0` —
true when at least one required parameter is missing from the mapping. -/
def missingRequired (fields : List (String × String)) : Bool :=
  !(hasField fields "keyid" && hasField fields "algorithm" && hasField fields "signature")

/-- The mapping has no key equal to `k` even up to ASCII case. -/
def lacksKeyCI (fields : List (String × String)) (k : String) : Bool :=
  fields.all (fun p => lowerStr p.1 != k)

/-- The verdict of `authenticate` on the non-raising paths: `none` models
the Python return value `None` (no credential presented), `some (u, kid)`
models the returned pair `(user, keyid-or-None)`. -/
abbrev AuthResult := Option (PyVal × Option String)

/-- Lines 116–122: the `On-Behalf-Of` block and the final return.  If the
header is present, the authenticated user is replaced by the impersonation
lookup's result; a falsy result raises a freshly constructed
`AuthenticationFailed("On behalf of user was not found.")`; a truthy one
yields `(user, None)`.  Without the header, `(user, fields["keyid"])` is
returned. -/
def onBehalfStep (env : Env) (req : Request) (user : PyVal) (keyid : String) :
    Except PyErr AuthResult :=
  if hasHeader req.headers "On-Behalf-Of" then
    match env.fetchOnBehalfOfUser ((headersGet req.headers "On-Behalf-Of").getD "") with
    | .error e => .error e
    | .ok user2 =>
      if truthy user2 = false then
        .error (PyErr.freshAuthFailed "On behalf of user was not found.")
      else .ok (some (user2, none))
  else .ok (some (user, some keyid))

/-- Lines 108–112: read `request.headers.get("(expires)", None)` and apply
`int` under `try: ... except TypeError: expires = None`.  `int(None)`'s
`TypeError` is caught (yielding no expiry); `int(s)`'s `ValueError` on a
non-numeric string is NOT caught and propagates. -/
def expiresOf (req : Request) : Except PyErr (Option Int) :=
  match pyInt (headersGet req.headers "(expires)") with
  | .ok n => .ok (some n)
  | .error PyErr.typeError => .ok none
  | .error e => .error e

/-- Line 113: the condition `expires and time.time() > expires` — the parsed
value must be truthy (present and nonzero) and strictly in the past. -/
def expiredB (now : Int) : Option Int → Bool
  | none => false
  | some e => (e != 0) && decide (now > e)

/-- Lines 107–122: the expiry check followed by the `On-Behalf-Of` block. -/
def expiresStep (env : Env) (req : Request) (user : PyVal) (keyid : String) :
    Except PyErr AuthResult :=
  match expiresOf req with
  | .error e => .error e
  | .ok expires =>
    if expiredB env.timeNow expires then .error FAILED
    else onBehalfStep env req user keyid

/-- Lines 94–122: construct the `HeaderVerifier` over
`(request.headers, secret, required_headers, method.lower(), full_path)`
and call `.verify()`; a false verdict raises `FAILED`, then the expiry and
impersonation steps run. -/
def verifyStep (env : Env) (req : Request) (user : PyVal) (secret : PyVal)
    (keyid : String) : Except PyErr AuthResult :=
  match env.headerVerify req.headers secret env.requiredHeaders
      (lowerStr req.method) req.fullPath with
  | .error e => .error e
  | .ok ok =>
    if ok = false then .error FAILED
    else expiresStep env req user keyid

/-- Lines 86–122: call `fetch_user_data(fields["keyid"],
algorithm=fields["algorithm"])`; if either half of the pair is falsy raise
`FAILED`, otherwise continue with verification. -/
def fetchStep (env : Env) (req : Request) (fields : List (String × String)) :
    Except PyErr AuthResult :=
  match env.fetchUserData (dictGet fields "keyid") (dictGet fields "algorithm") with
  | .error e => .error e
  | .ok us =>
    if (truthy us.1 && truthy us.2) = false then .error FAILED
    else verifyStep env req us.1 us.2 (dictGet fields "keyid")

/-- Lines 60–122: `SignatureAuthentication.authenticate`.  Returns
`.ok none` for absent/empty or foreign `Authorization` headers, raises
`FAILED` when the parsed mapping is empty or misses a required field, and
otherwise runs the credential, verification, expiry and impersonation
steps in order. -/
def authenticate (env : Env) (req : Request) : Except PyErr AuthResult :=
  let auth_header := get_authorization_header req
  if auth_header.isEmpty then .ok none
  else
    let parsed := env.parseAuthorizationHeader auth_header
    if lowerStr parsed.1 ≠ "signature" then .ok none
    else if parsed.2.length == 0 then .error FAILED
    else if missingRequired parsed.2 then .error FAILED
    else fetchStep env req parsed.2

/-! Concrete fixtures used by witnesses and counterexamples.  The parse
function and callbacks below are concrete instances of the abstract
collaborators, chosen to exercise each branch of `authenticate`. -/

/-- A parameter mapping carrying all three required fields. -/
def okFields : List (String × String) :=
  [("keyid", "some-key"), ("algorithm", "hmac-sha256"), ("signature", "c2lnbmF0dXJl")]

/-- A concrete stand-in for `parse_authorization_header`, mapping a few
fixed header values to parse results. -/
def parseFix (s : String) : String × List (String × String) :=
  if s = "Signature keyId=ok" then ("Signature", okFields)
  else if s = "Signature badkey" then
    ("Signature", [("keyid", "bad-key"), ("algorithm", "hmac-sha256"), ("signature", "c2ln")])
  else if s = "Signature boomkey" then
    ("Signature", [("keyid", "boom-key"), ("algorithm", "hmac-sha256"), ("signature", "c2ln")])
  else if s = "Signature junk" then ("Signature", [])
  else if s = "Signature nosig" then
    ("Signature", [("keyid", "some-key"), ("algorithm", "hmac-sha256")])
  else if s = "Basic dXNlcjpwYXNz" then ("Basic", [("u", "p")])
  else ("", [])

/-- A concrete `fetch_user_data`: one known key, one unknown key (the
`(None, None)` answer), one key whose lookup raises. -/
def fetchFix (kid : String) (_alg : String) : Except PyErr (PyVal × PyVal) :=
  if kid = "some-key" then .ok (some "test-user", some "my secret string")
  else if kid = "boom-key" then .error (PyErr.other "boom")
  else .ok (none, none)

/-- Environment whose verifier accepts every signature. -/
def envT : Env :=
  { parseAuthorizationHeader := parseFix
    fetchUserData := fetchFix
    headerVerify := fun _ _ _ _ _ => .ok true
    fetchOnBehalfOfUser := fun uid => .ok (some uid)
    requiredHeaders := ["(request-target)", "date"]
    timeNow := 1000 }

/-- Environment whose verifier rejects every signature. -/
def envF : Env := { envT with headerVerify := fun _ _ _ _ _ => .ok false }

/-- Environment whose verifier raises. -/
def envVBoom : Env := { envT with headerVerify := fun _ _ _ _ _ => .error (PyErr.other "vboom") }

/-- Environment whose impersonation lookup finds nobody. -/
def envBNone : Env := { envT with fetchOnBehalfOfUser := fun _ => .ok none }

/-- Environment whose impersonation lookup raises. -/
def envBBoom : Env := { envT with fetchOnBehalfOfUser := fun _ => .error (PyErr.other "bboom") }

/-- The non-Authorization headers shared by the fixture requests. -/
def baseHeaders : Headers :=
  [("Host", "localhost:8000"), ("Date", "Mon, 17 Feb 2014 06:11:05 GMT"),
   ("Accept", "application/json")]

/-- A fixture request with the given `Authorization` value and extra headers. -/
def reqWith (auth : String) (extra : Headers) : Request :=
  { method := "GET", fullPath := "/packages/measures/",
    headers := ("Authorization", auth) :: baseHeaders ++ extra }

/-- Request with no `Authorization` header at all. -/
def reqNoAuth : Request :=
  { method := "GET", fullPath := "/packages/measures/", headers := baseHeaders }

/-- Request with a well-formed `Signature` credential. -/
def reqOk : Request := reqWith "Signature keyId=ok" []

/-- Request with a foreign (`Basic`) scheme. -/
def reqForeign : Request := reqWith "Basic dXNlcjpwYXNz" []

/-- Request whose credential parses to an empty mapping. -/
def reqJunk : Request := reqWith "Signature junk" []

/-- Request whose credential lacks the `signature` field. -/
def reqNoSig : Request := reqWith "Signature nosig" []

/-- Request whose key identifier is unknown to `fetchFix`. -/
def reqBadKey : Request := reqWith "Signature badkey" []

/-- Request whose key identifier makes `fetchFix` raise. -/
def reqBoomKey : Request := reqWith "Signature boomkey" []

/-- Well-formed request carrying `(expires): 0`. -/
def reqExp0 : Request := reqWith "Signature keyId=ok" [("(expires)", "0")]

/-- Well-formed request carrying `(expires): 5` (in the past for `envT`). -/
def reqExpPast : Request := reqWith "Signature keyId=ok" [("(expires)", "5")]

/-- Well-formed request carrying `(expires): 1000` (exactly `envT`'s clock). -/
def reqExpNow : Request := reqWith "Signature keyId=ok" [("(expires)", "1000")]

/-- Well-formed request carrying a non-numeric `(expires)` value. -/
def reqExpBad : Request := reqWith "Signature keyId=ok" [("(expires)", "soon")]

/-- Well-formed request carrying an `On-Behalf-Of` header. -/
def reqBehalf : Request := reqWith "Signature keyId=ok" [("On-Behalf-Of", "42")]

/-! Reach lemmas: under hypotheses describing how each guard in
`authenticate` resolves, the orchestrator reduces to the next step. -/

/-- When the header is present, the scheme is `Signature`, the mapping is
nonempty and no required field is missing, `authenticate` reduces to the
credential-fetch step. -/
theorem auth_to_fetchStep (env : Env) (req : Request) (m : String)
    (fields : List (String × String))
    (hne : (get_authorization_header req).isEmpty = false)
    (hp : env.parseAuthorizationHeader (get_authorization_header req) = (m, fields))
    (hm : lowerStr m = "signature")
    (hlen : (fields.length == 0) = false)
    (hmiss : missingRequired fields = false) :
    authenticate env req = fetchStep env req fields := by
  simp [authenticate, hne, hp, hm, hlen, hmiss]

/-- When `fetch_user_data` returns a pair with both halves truthy, the
fetch step reduces to the verification step. -/
theorem fetchStep_to_verifyStep (env : Env) (req : Request)
    (fields : List (String × String)) (user secret : PyVal)
    (hf : env.fetchUserData (dictGet fields "keyid") (dictGet fields "algorithm") =
      .ok (user, secret))
    (hu : truthy user = true) (hs : truthy secret = true) :
    fetchStep env req fields = verifyStep env req user secret (dictGet fields "keyid") := by
  simp [fetchStep, hf, hu, hs]

/-- When the verifier answers `true`, the verification step reduces to the
expiry step. -/
theorem verifyStep_to_expiresStep (env : Env) (req : Request)
    (user secret : PyVal) (keyid : String)
    (hv : env.headerVerify req.headers secret env.requiredHeaders
      (lowerStr req.method) req.fullPath = .ok true) :
    verifyStep env req user secret keyid = expiresStep env req user keyid := by
  simp [verifyStep, hv]

/-- When the parsed expiry does not flag the request as expired, the expiry
step reduces to the impersonation step. -/
theorem expiresStep_to_onBehalfStep (env : Env) (req : Request)
    (user : PyVal) (keyid : String) (eo : Option Int)
    (he : expiresOf req = .ok eo) (hx : expiredB env.timeNow eo = false) :
    expiresStep env req user keyid = onBehalfStep env req user keyid := by
  simp [expiresStep, he, hx]

/-- A mapping lacking a lowercase key `k` even case-insensitively lacks it
exactly. -/
theorem lacksKeyCI_hasField (fields : List (String × String)) (k : String)
    (hk : lowerStr k = k) (h : lacksKeyCI fields k = true) :
    hasField fields k = false := by
  by_cases hha : hasField fields k = true
  · exfalso
    simp only [hasField, List.any_eq_true] at hha
    obtain ⟨p, hmem, hpk⟩ := hha
    have hall := by simpa only [lacksKeyCI, List.all_eq_true] using h
    have hne := hall p hmem
    rw [beq_iff_eq] at hpk
    rw [bne_iff_ne] at hne
    exact hne (by rw [hpk, hk])
  · exact Bool.eq_false_iff.mpr (fun hc => hha hc)

/-- C3: a request with an absent or empty `Authorization` header, or one
whose scheme token is not case-insensitively `Signature`, yields the
`NoCredentialPresented` verdict (`.ok none`) — never a rejection or an
authentication — regardless of the rest of the header's parsed content. -/
theorem c3_no_or_foreign_credential (env : Env) (req : Request) (m : String)
    (fields : List (String × String)) :
    ((get_authorization_header req).isEmpty = true → authenticate env req = .ok none) ∧
    ((get_authorization_header req).isEmpty = false →
      env.parseAuthorizationHeader (get_authorization_header req) = (m, fields) →
      lowerStr m ≠ "signature" → authenticate env req = .ok none) := by
  constructor
  · intro h
    simp [authenticate, h]
  · intro hne hp hm
    simp [authenticate, hne, hp, hm]

/-- Witness for C3: a request with no `Authorization` header and a request
with a `Basic` credential both get the `None` verdict. -/
theorem c3_no_or_foreign_credential_witness :
    authenticate envT reqNoAuth = .ok none ∧ authenticate envT reqForeign = .ok none := by
  constructor
  · exact (c3_no_or_foreign_credential envT reqNoAuth "" []).1 (by rfl)
  · exact (c3_no_or_foreign_credential envT reqForeign "Basic" [("u", "p")]).2
      (by rfl) (by rfl) (by decide)

/-- C4: a `Signature`-scheme credential whose parsed mapping is empty, or
lacks (even case-insensitively) any of the keys `keyid`, `algorithm`,
`signature`, is rejected with the single generic failure object `FAILED`,
whichever field is missing. -/
theorem c4_missing_required_field_rejected (env : Env) (req : Request) (m : String)
    (fields : List (String × String))
    (hne : (get_authorization_header req).isEmpty = false)
    (hp : env.parseAuthorizationHeader (get_authorization_header req) = (m, fields))
    (hm : lowerStr m = "signature")
    (hmiss : fields = [] ∨ lacksKeyCI fields "keyid" = true ∨
      lacksKeyCI fields "algorithm" = true ∨ lacksKeyCI fields "signature" = true) :
    authenticate env req = .error FAILED := by
  rcases hmiss with hfe | hl | hl | hl
  · subst hfe
    simp [authenticate, hne, hp, hm]
  · have hmr : missingRequired fields = true := by
      simp [missingRequired, lacksKeyCI_hasField fields "keyid" (by rfl) hl]
    by_cases hfe : (fields.length == 0) = true
    · simp [authenticate, hne, hp, hm, hfe]
    · simp [authenticate, hne, hp, hm, hfe, hmr]
  · have hmr : missingRequired fields = true := by
      simp [missingRequired, lacksKeyCI_hasField fields "algorithm" (by rfl) hl]
    by_cases hfe : (fields.length == 0) = true
    · simp [authenticate, hne, hp, hm, hfe]
    · simp [authenticate, hne, hp, hm, hfe, hmr]
  · have hmr : missingRequired fields = true := by
      simp [missingRequired, lacksKeyCI_hasField fields "signature" (by rfl) hl]
    by_cases hfe : (fields.length == 0) = true
    · simp [authenticate, hne, hp, hm, hfe]
    · simp [authenticate, hne, hp, hm, hfe, hmr]

/-- Witness for C4: a credential missing its `signature` field is rejected
with `FAILED`. -/
theorem c4_missing_required_field_rejected_witness :
    authenticate envT reqNoSig = .error FAILED :=
  c4_missing_required_field_rejected envT reqNoSig "Signature"
    [("keyid", "some-key"), ("algorithm", "hmac-sha256")]
    (by rfl) (by rfl) (by rfl)
    (Or.inr (Or.inr (Or.inr (by rfl))))

/-- C5: once a well-formed `Signature` credential reaches the lookup, a
`fetch_user_data` answer with either half falsy yields the generic
rejection `FAILED`, and only an answer with both halves truthy proceeds to
the signature-verification step. -/
theorem c5_falsy_credential_rejected (env : Env) (req : Request) (m : String)
    (fields : List (String × String)) (user secret : PyVal)
    (hne : (get_authorization_header req).isEmpty = false)
    (hp : env.parseAuthorizationHeader (get_authorization_header req) = (m, fields))
    (hm : lowerStr m = "signature")
    (hlen : (fields.length == 0) = false)
    (hmiss : missingRequired fields = false)
    (hf : env.fetchUserData (dictGet fields "keyid") (dictGet fields "algorithm") =
      .ok (user, secret)) :
    ((truthy user && truthy secret) = false → authenticate env req = .error FAILED) ∧
    (truthy user = true → truthy secret = true →
      authenticate env req = verifyStep env req user secret (dictGet fields "keyid")) := by
  rw [auth_to_fetchStep env req m fields hne hp hm hlen hmiss]
  constructor
  · intro h
    simp [fetchStep, hf, h]
  · intro hu hs
    exact fetchStep_to_verifyStep env req fields user secret hf hu hs

/-- Witness for C5: the `(None, None)` lookup answer is rejected with
`FAILED`, and the truthy answer proceeds to the verification step. -/
theorem c5_falsy_credential_rejected_witness :
    authenticate envT reqBadKey = .error FAILED ∧
    authenticate envT reqOk =
      verifyStep envT reqOk (some "test-user") (some "my secret string")
        (dictGet okFields "keyid") := by
  constructor
  · exact (c5_falsy_credential_rejected envT reqBadKey "Signature"
      [("keyid", "bad-key"), ("algorithm", "hmac-sha256"), ("signature", "c2ln")]
      none none (by rfl) (by rfl) (by rfl) (by rfl) (by rfl) (by rfl)).1
      (by rfl)
  · exact (c5_falsy_credential_rejected envT reqOk "Signature" okFields
      (some "test-user") (some "my secret string")
      (by rfl) (by rfl) (by rfl) (by rfl) (by rfl) (by rfl)).2
      (by rfl) (by rfl)

/-- C1: every generic rejection — empty parsed mapping, missing required
field, falsy credential-lookup answer, failed signature verification, or
expired signature — raises one and the same value: the module-level
constant `FAILED`, whose message is exactly "Invalid signature.", never
distinguished by failure cause. -/
theorem c1_single_reused_failure_object (env : Env) (req : Request) (m : String)
    (fields : List (String × String)) (user secret : PyVal) (e : Int)
    (hne : (get_authorization_header req).isEmpty = false)
    (hp : env.parseAuthorizationHeader (get_authorization_header req) = (m, fields))
    (hm : lowerStr m = "signature") :
    FAILED = PyErr.singletonAuthFailed "Invalid signature." ∧
    (fields = [] → authenticate env req = .error FAILED) ∧
    (missingRequired fields = true → authenticate env req = .error FAILED) ∧
    ((fields.length == 0) = false → missingRequired fields = false →
      env.fetchUserData (dictGet fields "keyid") (dictGet fields "algorithm") =
        .ok (user, secret) →
      (truthy user && truthy secret) = false →
      authenticate env req = .error FAILED) ∧
    ((fields.length == 0) = false → missingRequired fields = false →
      env.fetchUserData (dictGet fields "keyid") (dictGet fields "algorithm") =
        .ok (user, secret) →
      truthy user = true → truthy secret = true →
      env.headerVerify req.headers secret env.requiredHeaders
        (lowerStr req.method) req.fullPath = .ok false →
      authenticate env req = .error FAILED) ∧
    ((fields.length == 0) = false → missingRequired fields = false →
      env.fetchUserData (dictGet fields "keyid") (dictGet fields "algorithm") =
        .ok (user, secret) →
      truthy user = true → truthy secret = true →
      env.headerVerify req.headers secret env.requiredHeaders
        (lowerStr req.method) req.fullPath = .ok true →
      expiresOf req = .ok (some e) → e ≠ 0 → env.timeNow > e →
      authenticate env req = .error FAILED) := by
  refine ⟨rfl, ?_, ?_, ?_, ?_, ?_⟩
  · intro hfe
    subst hfe
    simp [authenticate, hne, hp, hm]
  · intro hmr
    by_cases hfe : (fields.length == 0) = true
    · simp [authenticate, hne, hp, hm, hfe]
    · simp only [Bool.not_eq_true] at hfe
      simp [authenticate, hne, hp, hm, hfe, hmr]
  · intro hlen hmiss hf hfalsy
    rw [auth_to_fetchStep env req m fields hne hp hm hlen hmiss]
    simp [fetchStep, hf, hfalsy]
  · intro hlen hmiss hf hu hs hv
    rw [auth_to_fetchStep env req m fields hne hp hm hlen hmiss,
        fetchStep_to_verifyStep env req fields user secret hf hu hs]
    simp [verifyStep, hv]
  · intro hlen hmiss hf hu hs hv he he0 hgt
    rw [auth_to_fetchStep env req m fields hne hp hm hlen hmiss,
        fetchStep_to_verifyStep env req fields user secret hf hu hs,
        verifyStep_to_expiresStep env req user secret (dictGet fields "keyid") hv]
    simp [expiresStep, he, expiredB, he0, hgt]

/-- Witness for C1: all five generic rejection causes evaluate to the one
constant `FAILED`. -/
theorem c1_single_reused_failure_object_witness :
    authenticate envT reqJunk = .error FAILED ∧
    authenticate envT reqNoSig = .error FAILED ∧
    authenticate envT reqBadKey = .error FAILED ∧
    authenticate envF reqOk = .error FAILED ∧
    authenticate envT reqExpPast = .error FAILED := by
  refine ⟨?_, ?_, ?_, ?_, ?_⟩
  · exact (c1_single_reused_failure_object envT reqJunk "Signature" [] none none 0
      (by rfl) (by rfl) (by rfl)).2.1 rfl
  · exact (c1_single_reused_failure_object envT reqNoSig "Signature"
      [("keyid", "some-key"), ("algorithm", "hmac-sha256")] none none 0
      (by rfl) (by rfl) (by rfl)).2.2.1 (by rfl)
  · exact (c1_single_reused_failure_object envT reqBadKey "Signature"
      [("keyid", "bad-key"), ("algorithm", "hmac-sha256"), ("signature", "c2ln")]
      none none 0
      (by rfl) (by rfl) (by rfl)).2.2.2.1 (by rfl) (by rfl) (by rfl) (by rfl)
  · exact (c1_single_reused_failure_object envF reqOk "Signature" okFields
      (some "test-user") (some "my secret string") 0
      (by rfl) (by rfl) (by rfl)).2.2.2.2.1
      (by rfl) (by rfl) (by rfl) (by rfl) (by rfl) (by rfl)
  · exact (c1_single_reused_failure_object envT reqExpPast "Signature" okFields
      (some "test-user") (some "my secret string") 5
      (by rfl) (by rfl) (by rfl)).2.2.2.2.2
      (by rfl) (by rfl) (by rfl) (by rfl) (by rfl) (by rfl) (by rfl)
      (by decide) (by decide)

/-- C6: when signature verification answers `false`, the verdict is the
generic rejection `FAILED` for every possible clock value — the `(expires)`
comparison is unreachable, so no rejection is ever produced on grounds of
expiry unless verification succeeded first. -/
theorem c6_expiry_checked_only_after_verification (env : Env) (req : Request)
    (m : String) (fields : List (String × String)) (user secret : PyVal) (t : Int)
    (hne : (get_authorization_header req).isEmpty = false)
    (hp : env.parseAuthorizationHeader (get_authorization_header req) = (m, fields))
    (hm : lowerStr m = "signature")
    (hlen : (fields.length == 0) = false)
    (hmiss : missingRequired fields = false)
    (hf : env.fetchUserData (dictGet fields "keyid") (dictGet fields "algorithm") =
      .ok (user, secret))
    (hu : truthy user = true) (hs : truthy secret = true)
    (hv : env.headerVerify req.headers secret env.requiredHeaders
      (lowerStr req.method) req.fullPath = .ok false) :
    authenticate { env with timeNow := t } req = .error FAILED := by
  rw [auth_to_fetchStep { env with timeNow := t } req m fields hne hp hm hlen hmiss,
      fetchStep_to_verifyStep { env with timeNow := t } req fields user secret hf hu hs]
  simp [verifyStep, hv]

/-- Witness for C6: with a rejecting verifier the verdict is `FAILED` at an
arbitrary clock value. -/
theorem c6_expiry_checked_only_after_verification_witness :
    authenticate { envF with timeNow := 77 } reqOk = .error FAILED :=
  c6_expiry_checked_only_after_verification envF reqOk "Signature" okFields
    (some "test-user") (some "my secret string") 77
    (by rfl) (by rfl) (by rfl) (by rfl) (by rfl) (by rfl) (by rfl) (by rfl) (by rfl)

/-- C10: a verified request carrying the pseudo-header `(expires): 0` skips
the expiry comparison entirely — the parsed integer 0 is falsy — so the
request is authenticated rather than rejected as expired, whatever the
clock says. -/
theorem c10_expires_zero_treated_as_no_expiry (env : Env) (req : Request)
    (m : String) (fields : List (String × String)) (user secret : PyVal)
    (hne : (get_authorization_header req).isEmpty = false)
    (hp : env.parseAuthorizationHeader (get_authorization_header req) = (m, fields))
    (hm : lowerStr m = "signature")
    (hlen : (fields.length == 0) = false)
    (hmiss : missingRequired fields = false)
    (hf : env.fetchUserData (dictGet fields "keyid") (dictGet fields "algorithm") =
      .ok (user, secret))
    (hu : truthy user = true) (hs : truthy secret = true)
    (hv : env.headerVerify req.headers secret env.requiredHeaders
      (lowerStr req.method) req.fullPath = .ok true)
    (hz : headersGet req.headers "(expires)" = some "0")
    (hb : hasHeader req.headers "On-Behalf-Of" = false) :
    authenticate env req = .ok (some (user, some (dictGet fields "keyid"))) := by
  have he : expiresOf req = .ok (some 0) := by
    unfold expiresOf
    rw [hz]
    rfl
  rw [auth_to_fetchStep env req m fields hne hp hm hlen hmiss,
      fetchStep_to_verifyStep env req fields user secret hf hu hs,
      verifyStep_to_expiresStep env req user secret (dictGet fields "keyid") hv,
      expiresStep_to_onBehalfStep env req user (dictGet fields "keyid") (some 0) he
        (by simp [expiredB])]
  simp [onBehalfStep, hb]

/-- Witness for C10: the fixture request with `(expires): 0` and a clock at
1000 is authenticated. -/
theorem c10_expires_zero_treated_as_no_expiry_witness :
    authenticate envT reqExp0 = .ok (some (some "test-user", some (dictGet okFields "keyid"))) :=
  c10_expires_zero_treated_as_no_expiry envT reqExp0 "Signature" okFields
    (some "test-user") (some "my secret string")
    (by rfl) (by rfl) (by rfl) (by rfl) (by rfl) (by rfl) (by rfl) (by rfl) (by rfl)
    (by rfl) (by rfl)

/-- C7 (amended): for a verified request whose `(expires)` value parses to
the integer `e`, a value exactly equal to the current time proceeds past
the expiry check (not yet expired), and a NONZERO value strictly below the
current time is rejected with the generic `FAILED`; the nonzero proviso is
forced by the code treating the parsed integer 0 as falsy. -/
theorem c7_expiry_boundary (env : Env) (req : Request)
    (m : String) (fields : List (String × String)) (user secret : PyVal) (e : Int)
    (hne : (get_authorization_header req).isEmpty = false)
    (hp : env.parseAuthorizationHeader (get_authorization_header req) = (m, fields))
    (hm : lowerStr m = "signature")
    (hlen : (fields.length == 0) = false)
    (hmiss : missingRequired fields = false)
    (hf : env.fetchUserData (dictGet fields "keyid") (dictGet fields "algorithm") =
      .ok (user, secret))
    (hu : truthy user = true) (hs : truthy secret = true)
    (hv : env.headerVerify req.headers secret env.requiredHeaders
      (lowerStr req.method) req.fullPath = .ok true)
    (he : expiresOf req = .ok (some e)) :
    (e = env.timeNow →
      authenticate env req = onBehalfStep env req user (dictGet fields "keyid")) ∧
    (e ≠ 0 → env.timeNow > e → authenticate env req = .error FAILED) := by
  constructor
  · intro heq
    have hx : expiredB env.timeNow (some e) = false := by
      subst heq
      simp [expiredB]
    rw [auth_to_fetchStep env req m fields hne hp hm hlen hmiss,
        fetchStep_to_verifyStep env req fields user secret hf hu hs,
        verifyStep_to_expiresStep env req user secret (dictGet fields "keyid") hv,
        expiresStep_to_onBehalfStep env req user (dictGet fields "keyid") (some e) he hx]
  · intro he0 hgt
    rw [auth_to_fetchStep env req m fields hne hp hm hlen hmiss,
        fetchStep_to_verifyStep env req fields user secret hf hu hs,
        verifyStep_to_expiresStep env req user secret (dictGet fields "keyid") hv]
    simp [expiresStep, he, expiredB, he0, hgt]

/-- Counterexample to C7 as stated: under `envT` the request `reqExp0`
passes signature verification and carries the numeric `(expires)` value 0,
which is strictly less than the clock value 1000, yet the verdict is
`Authenticated` rather than the claimed rejection. -/
theorem c7_expiry_boundary_counterexample :
    expiresOf reqExp0 = .ok (some 0) ∧ (0 : Int) < envT.timeNow ∧
    authenticate envT reqExp0 = .ok (some (some "test-user", some "some-key")) :=
  ⟨by rfl, by decide, by rfl⟩

/-- Witness for C7 (amended): `(expires)` equal to the clock proceeds to
the impersonation step; a nonzero past `(expires)` is rejected. -/
theorem c7_expiry_boundary_witness :
    authenticate envT reqExpNow = onBehalfStep envT reqExpNow (some "test-user") (dictGet okFields "keyid") ∧
    authenticate envT reqExpPast = .error FAILED := by
  constructor
  · exact (c7_expiry_boundary envT reqExpNow "Signature" okFields
      (some "test-user") (some "my secret string") 1000
      (by rfl) (by rfl) (by rfl) (by rfl) (by rfl) (by rfl) (by rfl) (by rfl) (by rfl)
      (by rfl)).1 (by rfl)
  · exact (c7_expiry_boundary envT reqExpPast "Signature" okFields
      (some "test-user") (some "my secret string") 5
      (by rfl) (by rfl) (by rfl) (by rfl) (by rfl) (by rfl) (by rfl) (by rfl) (by rfl)
      (by rfl)).2 (by decide) (by decide)

/-- C9: on a request that passed verification and expiry and carries an
`On-Behalf-Of` header, a falsy impersonation-lookup answer raises a fresh
`AuthenticationFailed` with the distinct message
"On behalf of user was not found." — not the generic `FAILED` object —
while a truthy answer authenticates the impersonated principal with a
`None` key identifier, discarding the original principal and keyId. -/
theorem c9_on_behalf_of_resolution (env : Env) (req : Request)
    (m : String) (fields : List (String × String)) (user secret u2 : PyVal)
    (eo : Option Int)
    (hne : (get_authorization_header req).isEmpty = false)
    (hp : env.parseAuthorizationHeader (get_authorization_header req) = (m, fields))
    (hm : lowerStr m = "signature")
    (hlen : (fields.length == 0) = false)
    (hmiss : missingRequired fields = false)
    (hf : env.fetchUserData (dictGet fields "keyid") (dictGet fields "algorithm") =
      .ok (user, secret))
    (hu : truthy user = true) (hs : truthy secret = true)
    (hv : env.headerVerify req.headers secret env.requiredHeaders
      (lowerStr req.method) req.fullPath = .ok true)
    (he : expiresOf req = .ok eo) (hx : expiredB env.timeNow eo = false)
    (hb : hasHeader req.headers "On-Behalf-Of" = true)
    (hlook : env.fetchOnBehalfOfUser ((headersGet req.headers "On-Behalf-Of").getD "") =
      .ok u2) :
    (truthy u2 = false →
      authenticate env req =
        .error (PyErr.freshAuthFailed "On behalf of user was not found.") ∧
      PyErr.freshAuthFailed "On behalf of user was not found." ≠ FAILED) ∧
    (truthy u2 = true → authenticate env req = .ok (some (u2, none))) := by
  have hchain : authenticate env req = onBehalfStep env req user (dictGet fields "keyid") := by
    rw [auth_to_fetchStep env req m fields hne hp hm hlen hmiss,
        fetchStep_to_verifyStep env req fields user secret hf hu hs,
        verifyStep_to_expiresStep env req user secret (dictGet fields "keyid") hv,
        expiresStep_to_onBehalfStep env req user (dictGet fields "keyid") eo he hx]
  constructor
  · intro hfalsy
    refine ⟨?_, by decide⟩
    rw [hchain]
    simp [onBehalfStep, hb, hlook, hfalsy]
  · intro htr
    rw [hchain]
    simp [onBehalfStep, hb, hlook, htr]

/-- Witness for C9: a failed impersonation lookup gets the distinct
message; a successful one yields the impersonated principal with a `None`
key identifier. -/
theorem c9_on_behalf_of_resolution_witness :
    authenticate envBNone reqBehalf =
      .error (PyErr.freshAuthFailed "On behalf of user was not found.") ∧
    authenticate envT reqBehalf = .ok (some (some "42", none)) := by
  constructor
  · exact ((c9_on_behalf_of_resolution envBNone reqBehalf "Signature" okFields
      (some "test-user") (some "my secret string") none none
      (by rfl) (by rfl) (by rfl) (by rfl) (by rfl) (by rfl) (by rfl) (by rfl) (by rfl)
      (by rfl) (by rfl) (by rfl) (by rfl)).1 (by rfl)).1
  · exact (c9_on_behalf_of_resolution envT reqBehalf "Signature" okFields
      (some "test-user") (some "my secret string") (some "42") none
      (by rfl) (by rfl) (by rfl) (by rfl) (by rfl) (by rfl) (by rfl) (by rfl) (by rfl)
      (by rfl) (by rfl) (by rfl) (by rfl)).2 (by rfl)

/-- C2 (amended): an exception raised by `fetch_user_data`, by the
verification primitive, or by `fetch_on_behalf_of_user` is NOT folded into
the generic rejection: `authenticate` propagates exactly that raw error to
the caller. -/
theorem c2_callback_errors_propagate (env : Env) (req : Request)
    (m : String) (fields : List (String × String)) (user secret : PyVal)
    (eo : Option Int)
    (hne : (get_authorization_header req).isEmpty = false)
    (hp : env.parseAuthorizationHeader (get_authorization_header req) = (m, fields))
    (hm : lowerStr m = "signature")
    (hlen : (fields.length == 0) = false)
    (hmiss : missingRequired fields = false) :
    (∀ err, env.fetchUserData (dictGet fields "keyid") (dictGet fields "algorithm") =
        .error err →
      authenticate env req = .error err) ∧
    (env.fetchUserData (dictGet fields "keyid") (dictGet fields "algorithm") =
        .ok (user, secret) →
      truthy user = true → truthy secret = true →
      ∀ err, env.headerVerify req.headers secret env.requiredHeaders
        (lowerStr req.method) req.fullPath = .error err →
      authenticate env req = .error err) ∧
    (env.fetchUserData (dictGet fields "keyid") (dictGet fields "algorithm") =
        .ok (user, secret) →
      truthy user = true → truthy secret = true →
      env.headerVerify req.headers secret env.requiredHeaders
        (lowerStr req.method) req.fullPath = .ok true →
      expiresOf req = .ok eo → expiredB env.timeNow eo = false →
      hasHeader req.headers "On-Behalf-Of" = true →
      ∀ err, env.fetchOnBehalfOfUser ((headersGet req.headers "On-Behalf-Of").getD "") =
        .error err →
      authenticate env req = .error err) := by
  refine ⟨?_, ?_, ?_⟩
  · intro err herr
    rw [auth_to_fetchStep env req m fields hne hp hm hlen hmiss]
    simp [fetchStep, herr]
  · intro hf hu hs err herr
    rw [auth_to_fetchStep env req m fields hne hp hm hlen hmiss,
        fetchStep_to_verifyStep env req fields user secret hf hu hs]
    simp [verifyStep, herr]
  · intro hf hu hs hv he hx hb err herr
    rw [auth_to_fetchStep env req m fields hne hp hm hlen hmiss,
        fetchStep_to_verifyStep env req fields user secret hf hu hs,
        verifyStep_to_expiresStep env req user secret (dictGet fields "keyid") hv,
        expiresStep_to_onBehalfStep env req user (dictGet fields "keyid") eo he hx]
    simp [onBehalfStep, hb, herr]

/-- Counterexample to C2 as stated: a credential lookup that raises
`other "boom"` on a well-formed Signature request makes `authenticate`
propagate that very error, which is not the generic failure object. -/
theorem c2_callback_errors_propagate_counterexample :
    authenticate envT reqBoomKey = .error (PyErr.other "boom") ∧
    PyErr.other "boom" ≠ FAILED :=
  ⟨by rfl, by decide⟩

/-- Witness for C2 (amended): raw errors from each of the three external
calls surface unchanged. -/
theorem c2_callback_errors_propagate_witness :
    authenticate envT reqBoomKey = .error (PyErr.other "boom") ∧
    authenticate envVBoom reqOk = .error (PyErr.other "vboom") ∧
    authenticate envBBoom reqBehalf = .error (PyErr.other "bboom") := by
  refine ⟨?_, ?_, ?_⟩
  · exact (c2_callback_errors_propagate envT reqBoomKey "Signature"
      [("keyid", "boom-key"), ("algorithm", "hmac-sha256"), ("signature", "c2ln")]
      none none none
      (by rfl) (by rfl) (by rfl) (by rfl) (by rfl)).1 (PyErr.other "boom") (by rfl)
  · exact (c2_callback_errors_propagate envVBoom reqOk "Signature" okFields
      (some "test-user") (some "my secret string") none
      (by rfl) (by rfl) (by rfl) (by rfl) (by rfl)).2.1
      (by rfl) (by rfl) (by rfl) (PyErr.other "vboom") (by rfl)
  · exact (c2_callback_errors_propagate envBBoom reqBehalf "Signature" okFields
      (some "test-user") (some "my secret string") none
      (by rfl) (by rfl) (by rfl) (by rfl) (by rfl)).2.2
      (by rfl) (by rfl) (by rfl) (by rfl) (by rfl) (by rfl) (by rfl)
      (PyErr.other "bboom") (by rfl)

/-- C8 (evaluation at the failing input): on a verified request whose
`(expires)` value is the non-numeric string "soon", `authenticate` lets
the `ValueError` from `int()` escape raw — the `except TypeError` guard on
line 111 does not catch `ValueError` — instead of treating the value as
"no expiry"; the same request without that header authenticates. -/
theorem c8_nonnumeric_expires_raises :
    authenticate envT reqExpBad = .error PyErr.valueError ∧
    PyErr.valueError ≠ FAILED ∧
    authenticate envT reqOk = .ok (some (some "test-user", some "some-key")) :=
  ⟨by rfl, by decide, by rfl⟩
